import Mathlib

/-!
Verification of the snare-flare MIDI-to-LED synchronization core.

This file gives a shallow embedding of the repository's event classifier
(src/led/drum_mapper.py), the actuator facade command construction
(src/led/neon.py), and the dual-priority queue / scheduling loop /
animation controller of src/led/midi_sync.py, and proves the specified
properties about them.

Python integers are embedded as Int (or Nat where the source values are
manifestly non-negative).  Python `int(x)` applied to a float truncates
toward zero and is embedded as `Int.tdiv`; Python `//` is floor division
and is embedded as `Int.fdiv`.  Wherever the source computes through
floats (`int(brightness * 0.3)`, `int((velocity / 127) * 70)`), the doc
comment of the embedding records the (exhaustively checked) range on
which the float computation coincides with the exact rational truncation
used here.  Wall-clock timestamps (time.time()) are embedded as Rat.
-/

namespace SnareFlare

/-- Embeds the DrumType enum of src/led/drum_mapper.py (lines 12-20). -/
inductive DrumType
  | kick
  | snare
  | hihat
  | crash
  | ride
  | tom
  | unknown
deriving DecidableEq, Repr

/-- RGB color triple, each channel 0-255 in the source data. -/
abbrev RGB := ℕ × ℕ × ℕ

/-- Embeds the DRUM_NOTES table of src/led/drum_mapper.py (lines 24-53):
the General MIDI note-number-to-drum-type dictionary. -/
def DRUM_NOTES : List (ℕ × DrumType) :=
  [(36, DrumType.kick), (35, DrumType.kick),
   (38, DrumType.snare), (40, DrumType.snare),
   (42, DrumType.hihat), (44, DrumType.hihat), (46, DrumType.hihat),
   (49, DrumType.crash), (57, DrumType.crash),
   (51, DrumType.ride), (59, DrumType.ride),
   (41, DrumType.tom), (43, DrumType.tom), (45, DrumType.tom),
   (47, DrumType.tom), (48, DrumType.tom), (50, DrumType.tom)]

/-- Embeds DrumMapper.get_drum_type (src/led/drum_mapper.py lines 85-95):
a dictionary lookup defaulting to UNKNOWN. -/
def get_drum_type (note : ℕ) : DrumType :=
  (DRUM_NOTES.lookup note).getD DrumType.unknown

/-- Embeds the DEFAULT_DRUM_COLORS table of src/led/drum_mapper.py
(lines 56-64). -/
def DEFAULT_DRUM_COLORS : List (DrumType × RGB) :=
  [(DrumType.kick, (255, 0, 0)),
   (DrumType.snare, (255, 255, 255)),
   (DrumType.hihat, (0, 255, 255)),
   (DrumType.crash, (255, 255, 0)),
   (DrumType.ride, (255, 165, 0)),
   (DrumType.tom, (0, 255, 0)),
   (DrumType.unknown, (128, 128, 128))]

/-- State of a DrumMapper instance (src/led/drum_mapper.py lines 67-83). -/
structure DrumMapper where
  drum_colors : List (DrumType × RGB)
  velocity_to_brightness : Bool
deriving DecidableEq, Repr

/-- Embeds DrumMapper.__init__ (src/led/drum_mapper.py lines 70-83):
the line is drum_colors or DEFAULT_DRUM_COLORS.copy(), where Python
falsiness means both None and an empty dict select the default table,
while any non-empty dict replaces the whole table. -/
def DrumMapper.mkInit (drum_colors : Option (List (DrumType × RGB)))
    (velocity_to_brightness : Bool) : DrumMapper :=
  { drum_colors :=
      match drum_colors with
      | none => DEFAULT_DRUM_COLORS
      | some d => if d = [] then DEFAULT_DRUM_COLORS else d
    velocity_to_brightness := velocity_to_brightness }

/-- Embeds DrumMapper.get_color (src/led/drum_mapper.py lines 97-108):
self.drum_colors.get(drum_type, DEFAULT_DRUM_COLORS[DrumType.UNKNOWN]).
The direct index DEFAULT_DRUM_COLORS[DrumType.UNKNOWN] always succeeds in
the source (the key is in the static table) and equals (128, 128, 128);
it is embedded as a lookup with an inert (0, 0, 0) fallback. -/
def DrumMapper.get_color (m : DrumMapper) (note : ℕ) : RGB :=
  (m.drum_colors.lookup (get_drum_type note)).getD
    ((DEFAULT_DRUM_COLORS.lookup DrumType.unknown).getD (0, 0, 0))

/-- Embeds DrumMapper.get_brightness (src/led/drum_mapper.py lines
110-128): returns 100 when velocity_to_brightness is off, otherwise
30 + int((velocity / 127) * (100 - 30)).  Python int() truncates toward
zero; for every integer velocity with |velocity| ≤ 1000 the float
expression int((velocity / 127) * 70) equals the exact truncation
of 70 * velocity / 127 (checked exhaustively on that range: the exact
value is an integer only when 127 divides velocity, where the float
computation is exact, and is otherwise at distance at least 1/127 from
any integer, far above double rounding error), so it is embedded as
Int.tdiv. -/
def DrumMapper.get_brightness (m : DrumMapper) (velocity : ℤ) : ℤ :=
  if !m.velocity_to_brightness then 100
  else 30 + (velocity * 70).tdiv 127

/-- Embeds DrumMapper.get_color_and_brightness (src/led/drum_mapper.py
lines 130-145). -/
def DrumMapper.get_color_and_brightness (m : DrumMapper) (note : ℕ)
    (velocity : ℤ) : RGB × ℤ :=
  (m.get_color note, m.get_brightness velocity)

/-- Embeds the command construction of LEDController.set_brightness
(src/led/neon.py lines 98-105): clamp to [0, 100], compute
adjusted = (brightness * 32) // 100 (Python floor division, Int.fdiv),
then build the nine command bytes handed to bytes(...). -/
def set_brightness_command (brightness : ℤ) : List ℤ :=
  let b := max 0 (min 100 brightness)
  let adjusted := (b * 32).fdiv 100
  [0x7B, 0xFF, 0x01, adjusted, b, 0x00, 0xFF, 0xFF, 0xBF]

/-- Embeds the fade computation of the fade_back closure in
MIDISync._flash_led (src/led/midi_sync.py line 271):
max(20, int(brightness * 0.3)).  Python int() truncates toward zero;
for every integer brightness in [-10, 200] the float expression
int(brightness * 0.3) equals the exact truncation of
3 * brightness / 10 (checked exhaustively), so it is embedded as
Int.tdiv. -/
def fade_brightness (brightness : ℤ) : ℤ :=
  max 20 ((brightness * 3).tdiv 10)

/-- Modelled from the spec wording of the fade step (section 4.4 step 3):
setBrightness(max(20, round(brightness*0.3))).  Defined only to compare
the spec's rounding with the code's truncation; round is the standard
round-half-up rounding on rationals. -/
def spec_fade_brightness (brightness : ℤ) : ℤ :=
  max 20 (round ((brightness * 3 : ℚ) / 10))

/-- One asynchronous operation issued against the actuator facade. -/
inductive ActuatorCall
  | setColor (c : RGB)
  | setBrightness (b : ℤ)
deriving DecidableEq, Repr

/-- Embeds the body of the fade_back closure (src/led/midi_sync.py lines
269-275): after the flash-duration sleep it issues
set_brightness(max(20, int(brightness * 0.3))) and then, when
original_color is set, set_color(*original_color), in that order. -/
def fade_back_calls (brightness : ℤ) (original_color : Option RGB) :
    List ActuatorCall :=
  ActuatorCall.setBrightness (fade_brightness brightness) ::
    (match original_color with
     | some c => [ActuatorCall.setColor c]
     | none => [])

/-- A queued MIDI event: the (note, velocity, timestamp) tuples placed
into the queues by MIDISync._midi_callback (src/led/midi_sync.py lines
147, 155, 170). -/
structure Event where
  note : ℕ
  velocity : ℕ
  timestamp : ℚ
deriving DecidableEq, Repr, Inhabited

/-- Embeds the drop-oldest offer of MIDISync._midi_callback (src/led/
midi_sync.py lines 151-184): put_nowait appends when the queue is below
capacity; on QueueFull a single get_nowait removes the oldest element and
the new one is appended.  Never blocks and never rejects the producer. -/
def offer {α : Type} (cap : ℕ) (q : List α) (e : α) : List α :=
  if q.length < cap then q ++ [e] else q.tail ++ [e]

/-- Capacity of the normal-priority queue, Queue(maxsize=10) in
MIDISync.__init__ (src/led/midi_sync.py line 58). -/
def midi_queue_maxsize : ℕ := 10

/-- Capacity of the high-priority kick queue, Queue(maxsize=5) in
MIDISync.__init__ (src/led/midi_sync.py line 60). -/
def kick_queue_maxsize : ℕ := 5

/-- The consumer-side state of MIDISync: the two bounded event queues. -/
structure LoopState where
  kickQ : List Event
  midiQ : List Event
deriving DecidableEq, Repr

/-- Embeds the routing of MIDISync._midi_callback (src/led/midi_sync.py
lines 138-184): classify the note; kicks are offered to the bounded kick
queue, all other drums to the midi queue. -/
def midi_callback (s : LoopState) (note velocity : ℕ) (timestamp : ℚ) :
    LoopState :=
  if get_drum_type note = DrumType.kick then
    { s with kickQ := offer kick_queue_maxsize s.kickQ ⟨note, velocity, timestamp⟩ }
  else
    { s with midiQ := offer midi_queue_maxsize s.midiQ ⟨note, velocity, timestamp⟩ }

/-- Input to one iteration of the main event loop of MIDISync.run:
arrivals are the trigger events the MIDI thread delivers before the
iteration's queue reads (producer offers are serialized at iteration
boundaries in this embedding); kickClock gives the successive values of
time.time() observed inside the kick drain, indexed by dequeue count;
normalNow is the value of time.time() observed after a normal-queue
get. -/
structure IterInput where
  arrivals : List (ℕ × ℕ × ℚ)
  kickClock : ℕ → ℚ
  normalNow : ℚ

/-- One dispatch of an event to process_midi_event (src/led/midi_sync.py
lines 361 and 386), tagged with the is_kick flag of the call. -/
structure Dispatch where
  is_kick : Bool
  event : Event
deriving DecidableEq, Repr

/-- Embeds the kick drain of MIDISync.run (src/led/midi_sync.py lines
347-364): repeatedly get_nowait from the kick queue until QueueEmpty;
each dequeued event's age is computed against its own time.time() value
(clock i for the i-th dequeue); events with age > maxAge are skipped,
fresh ones are dispatched.  Returns the dispatched kicks in order; the
loop exits only when the queue is empty. -/
def drainKicks (maxAge : ℚ) (clock : ℕ → ℚ) : List Event → ℕ → List Event
  | [], _ => []
  | e :: q, i =>
      if clock i - e.timestamp > maxAge then drainKicks maxAge clock q (i + 1)
      else e :: drainKicks maxAge clock q (i + 1)

/-- The post-offer state of an iteration: the queues after the producer's
arrivals have been applied, as read by the drain of that iteration. -/
def postOffer (s : LoopState) (inp : IterInput) : LoopState :=
  inp.arrivals.foldl (fun t a => midi_callback t a.1 a.2.1 a.2.2) s

/-- Embeds one iteration of the main event loop of MIDISync.run
(src/led/midi_sync.py lines 342-389): apply the producer's offers, drain
the kick queue exhaustively; if any fresh kick was processed, continue
(the normal queue is not touched).  Otherwise take the head of the
normal queue (wait_for with a 0.01s timeout: empty queue means timeout,
no dispatch), apply the same staleness check at normalNow, and dispatch
the event if fresh.  Returns the new state and the dispatches of the
iteration in order. -/
def loopIter (maxAge : ℚ) (s : LoopState) (inp : IterInput) :
    LoopState × List Dispatch :=
  let s1 := postOffer s inp
  let kicks := drainKicks maxAge inp.kickClock s1.kickQ 0
  if kicks ≠ [] then
    ({ kickQ := [], midiQ := s1.midiQ }, kicks.map (Dispatch.mk true))
  else
    match s1.midiQ with
    | [] => ({ kickQ := [], midiQ := [] }, [])
    | e :: rest =>
        if inp.normalNow - e.timestamp > maxAge then
          ({ kickQ := [], midiQ := rest }, [])
        else
          ({ kickQ := [], midiQ := rest }, [⟨false, e⟩])

/-- Seven rapid kick events, used to witness the C2 queue property. -/
def sampleEvents : List Event :=
  [⟨36, 100, 0⟩, ⟨36, 101, 1⟩, ⟨36, 102, 2⟩, ⟨36, 103, 3⟩,
   ⟨36, 104, 4⟩, ⟨36, 105, 5⟩, ⟨36, 106, 6⟩]

/-- An animation request handed to _flash_led.  Animations are anonymous
coroutine invocations in the source; the id tag identifies which
invocation issued each logged actuator call, so that the log can speak
about the calls of the first and of the second animation. -/
structure Anim where
  id : ℕ
  color : RGB
  brightness : ℤ
deriving DecidableEq, Repr

/-- An actuator call recorded in the controller run log, tagged with the
phase of _flash_led that issued it (flash = lines 265-266, fade = lines
272-275 of src/led/midi_sync.py) and the issuing animation's tag. -/
inductive LogCall
  | flashColor (id : ℕ) (c : RGB)
  | flashBrightness (id : ℕ) (b : ℤ)
  | fadeBrightness (id : ℕ) (b : ℤ)
  | fadeColor (id : ℕ) (c : RGB)
deriving DecidableEq, Repr

/-- Animation-controller state: the cancellable pending fade task per
priority class, mirroring active_kick_task and active_led_task of
MIDISync (src/led/midi_sync.py lines 66-67).  A value some a means the
fade of animation a is scheduled and not yet run (the task is not done);
none means there is no live task to cancel. -/
structure CtrlState where
  active_kick_task : Option Anim
  active_led_task : Option Anim
deriving DecidableEq, Repr

/-- Reads the per-class task slot selected by is_kick (the if/else at
src/led/midi_sync.py lines 247 and 257). -/
def getTask (s : CtrlState) (is_kick : Bool) : Option Anim :=
  if is_kick then s.active_kick_task else s.active_led_task

/-- Writes the per-class task slot selected by is_kick (the assignments
at src/led/midi_sync.py lines 279 and 281). -/
def setTask (s : CtrlState) (is_kick : Bool) (t : Option Anim) : CtrlState :=
  if is_kick then { s with active_kick_task := t }
  else { s with active_led_task := t }

/-- An operation on the animation controller.  flash embeds one complete
_flash_led invocation; fadeFire embeds the pending fade task of the
class reaching its flash-duration timer and running to completion.  Each
operation is atomic in this embedding: the scheduling loop and all
animation steps run on the single cooperative asyncio context (spec
section 5), so operations are serialized. -/
inductive CtrlOp
  | flash (is_kick : Bool) (a : Anim)
  | fadeFire (is_kick : Bool)
deriving DecidableEq, Repr

/-- Embeds MIDISync._flash_led and its fade_back task (src/led/
midi_sync.py lines 236-284) as a step function returning the new state
and the actuator calls issued.  On flash, the predecessor task of the
class, if pending, is cancelled and awaited before any actuator call
(lines 246-262), so its fade never runs - dropping it from the slot;
then the flash set_color and set_brightness are issued (lines 265-266)
and the new fade task is stored in the slot (lines 278-281).  On
fadeFire, a pending fade task issues set_brightness(fade) then
set_color(original_color) (lines 270-275) and is then done. -/
def ctrlStep (original_color : RGB) (s : CtrlState) :
    CtrlOp → CtrlState × List LogCall
  | .flash k a =>
      (setTask s k (some a),
       [.flashColor a.id a.color, .flashBrightness a.id a.brightness])
  | .fadeFire k =>
      match getTask s k with
      | none => (s, [])
      | some a =>
          (setTask s k none,
           [.fadeBrightness a.id (fade_brightness a.brightness),
            .fadeColor a.id original_color])

/-- Runs a sequence of controller operations, accumulating the log of
actuator calls in order. -/
def ctrlRun (original_color : RGB) (s : CtrlState) :
    List CtrlOp → CtrlState × List LogCall
  | [] => (s, [])
  | op :: ops =>
      let r := ctrlStep original_color s op
      let r2 := ctrlRun original_color r.1 ops
      (r2.1, r.2 ++ r2.2)

/-- The animation tags of the flash operations in an op sequence. -/
def flashIds : List CtrlOp → List ℕ
  | [] => []
  | .flash _ a :: ops => a.id :: flashIds ops
  | .fadeFire _ :: ops => flashIds ops

/-- Whether a log call is a fade-phase call of animation n. -/
def LogCall.isFadeOf (n : ℕ) : LogCall → Bool
  | .fadeBrightness m _ => m = n
  | .fadeColor m _ => m = n
  | _ => false

/-- Whether a log call is the flash-phase set_color of animation n. -/
def LogCall.isFlashColorOf (n : ℕ) : LogCall → Bool
  | .flashColor m _ => m = n
  | _ => false

/-- Whether a log call is the flash-phase set_brightness of animation
n. -/
def LogCall.isFlashBrightnessOf (n : ℕ) : LogCall → Bool
  | .flashBrightness m _ => m = n
  | _ => false

/-- A Python-level exception raised by an underlying operation. -/
inductive PyErr
  | err
deriving DecidableEq, Repr

/-- Fault environment for C8: decides, for each actuator write (indexed
by a global call counter), whether the underlying BLE write raises, and
whether the client is connected at that call. -/
structure FaultEnv where
  writeRaises : ℕ → Bool
  connected : ℕ → Bool

/-- The underlying BLE write, client.write_gatt_char (src/led/neon.py
line 75): may raise. -/
def write_gatt_char (env : FaultEnv) (i : ℕ) : Except PyErr Unit :=
  if env.writeRaises i then .error .err else .ok ()

/-- Embeds LEDController.send_command (src/led/neon.py lines 68-79):
returns False when not connected; otherwise performs the write inside a
try block, returning True on success and catching every exception into a
print-and-return-False.  The Except result type records whether an
exception escapes to the caller; the catch means it never does. -/
def send_command (env : FaultEnv) (i : ℕ) : Except PyErr Bool :=
  if !env.connected i then .ok false
  else
    match write_gatt_char env i with
    | .ok _ => .ok true
    | .error _ => .ok false

/-- Embeds the actuator section of MIDISync._flash_led (src/led/
midi_sync.py lines 264-266): the flash set_color then set_brightness,
each going through send_command (set_color and set_brightness of
src/led/neon.py only call send_command, which absorbs failures).
Returns the two success flags and the advanced call counter; an
escaping exception would surface as Except.error (the try/except of
_flash_led at lines 245 and 283-284 would absorb even that). -/
def flash_led_body (env : FaultEnv) (i : ℕ) : Except PyErr (Bool × Bool × ℕ) := do
  let c ← send_command env i
  let b ← send_command env (i + 1)
  pure (c, b, i + 2)

/-- The actuator writes triggered by one dispatched event. -/
def dispatchWrites (env : FaultEnv) (i : ℕ) (_ : Dispatch) : Except PyErr ℕ := do
  let x ← flash_led_body env i
  pure x.2.2

/-- The body of one while-iteration of MIDISync.run under actuator
faults: the iteration's queue work plus the _flash_led writes of each
dispatch.  An Except.error value would be an exception reaching the
while-body's except clause. -/
def iterBody (env : FaultEnv) (maxAge : ℚ) (s : LoopState) (inp : IterInput)
    (i : ℕ) : Except PyErr (LoopState × List Dispatch × ℕ) := do
  let r := loopIter maxAge s inp
  let i2 ← r.2.foldlM (dispatchWrites env) i
  pure (r.1, r.2, i2)

/-- Embeds the try/except Exception wrapping of the while-body
(src/led/midi_sync.py lines 343 and 391-392): an escaping error is
logged and the loop continues with the iteration treated as a no-op
dispatch-wise. -/
def loopIterCaught (env : FaultEnv) (maxAge : ℚ) (s : LoopState)
    (inp : IterInput) (i : ℕ) : LoopState × List Dispatch × ℕ :=
  match iterBody env maxAge s inp i with
  | .ok r => r
  | .error _ => ((loopIter maxAge s inp).1, [], i)

/-- Runs the main loop for a list of iteration inputs under actuator
faults, returning the dispatches of every iteration. -/
def loopRunFaults (env : FaultEnv) (maxAge : ℚ) :
    LoopState → List IterInput → ℕ → List (List Dispatch)
  | _, [], _ => []
  | s, inp :: inps, i =>
      let r := loopIterCaught env maxAge s inp i
      r.2.1 :: loopRunFaults env maxAge r.1 inps r.2.2

/-- C9: under the default configuration get_brightness maps velocity 0 to
the floor 30 and velocity 127 to the ceiling 100, and with
velocity_to_brightness disabled it returns exactly 100 for every
velocity. -/
theorem brightness_endpoints :
    (DrumMapper.mkInit none true).get_brightness 0 = 30
    ∧ (DrumMapper.mkInit none true).get_brightness 127 = 100
    ∧ ∀ v : ℤ, (DrumMapper.mkInit none false).get_brightness v = 100 := by
  refine ⟨by decide, by decide, fun v => ?_⟩
  simp [DrumMapper.get_brightness, DrumMapper.mkInit]

/-- C6 counterexample: get_brightness does not clamp its input to the
0-127 domain; velocity 254 yields brightness 170, outside the configured
30-100 range. -/
theorem get_brightness_no_clamp_cex :
    (DrumMapper.mkInit none true).get_brightness 254 = 170
    ∧ ¬ (DrumMapper.mkInit none true).get_brightness 254 ≤ 100 := by
  decide

/-- C6 amended: get_brightness performs no clamping, but for every
velocity inside the declared 0-127 domain the result lies in the
configured floor-ceiling range 30-100. -/
theorem get_brightness_in_range (v : ℤ) (h0 : 0 ≤ v) (h1 : v ≤ 127) :
    30 ≤ (DrumMapper.mkInit none true).get_brightness v
    ∧ (DrumMapper.mkInit none true).get_brightness v ≤ 100 := by
  simp only [DrumMapper.get_brightness, DrumMapper.mkInit, Bool.not_true,
    if_neg, Bool.false_eq_true, if_false]
  rw [Int.tdiv_eq_ediv (by positivity) (by norm_num)]
  omega

/-- Witness for the C6 amended theorem at velocity 64. -/
theorem get_brightness_in_range_witness :
    (0 : ℤ) ≤ 64 ∧ (64 : ℤ) ≤ 127
    ∧ (30 ≤ (DrumMapper.mkInit none true).get_brightness 64
       ∧ (DrumMapper.mkInit none true).get_brightness 64 ≤ 100) :=
  ⟨by decide, by decide, get_brightness_in_range 64 (by decide) (by decide)⟩

/-- C7 counterexample: a partial color override supplied at construction
replaces the whole default table, so an unoverridden category (snare,
note 38) falls back to the UNKNOWN gray (128, 128, 128) instead of its
fixed default (255, 255, 255). -/
theorem get_color_partial_override_cex :
    (DrumMapper.mkInit (some [(DrumType.kick, (0, 0, 255))]) true).get_color 38
      = (128, 128, 128)
    ∧ (DrumMapper.mkInit none true).get_color 38 = (255, 255, 255)
    ∧ ((128, 128, 128) : RGB) ≠ (255, 255, 255) := by
  decide

/-- C7 amended: a non-empty override table supplied at construction
replaces the entire default table, so any category absent from it maps
to the UNKNOWN gray (128, 128, 128); only when no override table is
supplied does every category keep its fixed default color. -/
theorem get_color_replace_semantics (overrides : List (DrumType × RGB))
    (note : ℕ) (hmiss : overrides.lookup (get_drum_type note) = none)
    (hne : overrides ≠ []) :
    (DrumMapper.mkInit (some overrides) true).get_color note = (128, 128, 128)
    ∧ (DrumMapper.mkInit none true).get_color note
        = (DEFAULT_DRUM_COLORS.lookup (get_drum_type note)).getD (0, 0, 0) := by
  constructor
  · simp [DrumMapper.get_color, DrumMapper.mkInit, if_neg hne, hmiss]
    decide
  · cases h : get_drum_type note <;>
      simp [DrumMapper.get_color, DrumMapper.mkInit, h] <;> decide

/-- Witness for the C7 amended theorem: kick-only override, snare note. -/
theorem get_color_replace_semantics_witness :
    ([(DrumType.kick, (0, 0, 255))] : List (DrumType × RGB)).lookup
        (get_drum_type 38) = none
    ∧ ([(DrumType.kick, (0, 0, 255))] : List (DrumType × RGB)) ≠ []
    ∧ ((DrumMapper.mkInit (some [(DrumType.kick, (0, 0, 255))]) true).get_color 38
         = (128, 128, 128)
       ∧ (DrumMapper.mkInit none true).get_color 38
           = (DEFAULT_DRUM_COLORS.lookup (get_drum_type 38)).getD (0, 0, 0)) :=
  ⟨by decide, by decide,
    get_color_replace_semantics [(DrumType.kick, (0, 0, 255))] 38
      (by decide) (by decide)⟩

/-- C10: set_brightness clamps its argument into [0, 100] before encoding,
so for every integer input all nine encoded command bytes lie in
[0, 255] (the bytes(...) constructor cannot raise) and the brightness
byte at index 4 lies in [0, 100]. -/
theorem set_brightness_clamps (b : ℤ) :
    (∀ x ∈ set_brightness_command b, 0 ≤ x ∧ x ≤ 255)
    ∧ 0 ≤ (set_brightness_command b).getD 4 0
    ∧ (set_brightness_command b).getD 4 0 ≤ 100 := by
  have hb0 : (0 : ℤ) ≤ max 0 (min 100 b) := le_max_left 0 _
  have hb1 : max 0 (min 100 b) ≤ 100 := by
    rcases le_or_lt b 100 with h | h
    · exact max_le (by norm_num) (min_le_of_right_le h)
    · exact max_le (by norm_num) (min_le_left _ _)
  have hadj : 0 ≤ (max 0 (min 100 b) * 32).fdiv 100
      ∧ (max 0 (min 100 b) * 32).fdiv 100 ≤ 32 := by
    rw [Int.fdiv_eq_ediv _ (by norm_num)]
    omega
  refine ⟨?_, ?_, ?_⟩
  · intro x hx
    simp only [set_brightness_command, List.mem_cons, List.not_mem_nil,
      or_false] at hx
    rcases hx with h | h | h | h | h | h | h | h | h <;> subst h <;> omega
  · simp [set_brightness_command, hb0]
  · simp [set_brightness_command, hb1]

/-- C5 counterexample: at flash brightness 69 (reachable, velocity 71)
the code truncates: int(69 * 0.3) = int(20.7) = 20, so the fade sets
brightness 20, while the spec's round(69 * 0.3) = 21. -/
theorem fade_round_cex :
    fade_brightness 69 = 20
    ∧ spec_fade_brightness 69 = 21
    ∧ fade_brightness 69 ≠ spec_fade_brightness 69 := by
  refine ⟨by decide, ?_, ?_⟩
  · norm_num [spec_fade_brightness, round_eq]
  · norm_num [spec_fade_brightness, round_eq]
    decide

/-- C5 amended: the deferred fade-back step sets brightness to exactly
max(20, trunc(brightness * 0.3)) - truncation toward zero, which for
non-negative brightness is the floor of 3b/10 - and then restores the
baseline color via setColor, in that order. -/
theorem fade_back_exact (b : ℤ) (hb : 0 ≤ b) (c : RGB) :
    fade_back_calls b (some c)
      = [ActuatorCall.setBrightness (max 20 ⌊(b * 3 : ℚ) / 10⌋),
         ActuatorCall.setColor c] := by
  have h1 : ((b * 3 : ℚ) / 10) = ((b * 3 : ℤ) : ℚ) / ((10 : ℕ) : ℚ) := by
    push_cast; ring
  rw [fade_back_calls, fade_brightness,
    Int.tdiv_eq_ediv (by positivity) (by norm_num), h1,
    Rat.floor_intCast_div_natCast]
  norm_num

/-- Witness for the C5 amended theorem at brightness 69. -/
theorem fade_back_exact_witness :
    (0 : ℤ) ≤ 69
    ∧ fade_back_calls 69 (some (255, 255, 255))
        = [ActuatorCall.setBrightness (max 20 ⌊((69 : ℤ) * 3 : ℚ) / 10⌋),
           ActuatorCall.setColor (255, 255, 255)] :=
  ⟨by decide, fade_back_exact 69 (by decide) (255, 255, 255)⟩

/-- Helper: folding drop-oldest offers over a queue whose length respects
the capacity retains exactly the most recent cap elements of the
concatenation, in arrival order. -/
theorem offer_foldl_drop {α : Type} (cap : ℕ) (hcap : 0 < cap)
    (es : List α) : ∀ q : List α, q.length ≤ cap →
      es.foldl (offer cap) q = (q ++ es).drop ((q ++ es).length - cap) := by
  induction es with
  | nil =>
      intro q hq
      simp only [List.foldl_nil, List.append_nil]
      rw [Nat.sub_eq_zero_of_le hq, List.drop_zero]
  | cons e es ih =>
      intro q hq
      rw [List.foldl_cons]
      by_cases h : q.length < cap
      · have hlen : (offer cap q e).length ≤ cap := by
          simp only [offer, if_pos h, List.length_append, List.length_cons]
          simpa using h
        rw [ih (offer cap q e) hlen]
        simp only [offer, if_pos h]
        rw [List.append_assoc]
        rfl
      · rcases q with _ | ⟨a, t⟩
        · exfalso
          simp only [List.length_nil, Nat.not_lt, Nat.le_zero] at h
          omega
        · have hq' : t.length + 1 ≤ cap := by simpa using hq
          have h' : ¬ t.length + 1 < cap := by simpa using h
          have hlen : (offer cap (a :: t) e).length ≤ cap := by
            simp only [offer, List.length_cons, if_neg h', List.tail_cons,
              List.length_append, List.length_nil]
            omega
          rw [ih _ hlen]
          simp only [offer, List.length_cons, if_neg h', List.tail_cons]
          rw [List.append_assoc]
          simp only [List.singleton_append]
          have h1 : (t ++ e :: es).length - cap = es.length := by
            simp only [List.length_append, List.length_cons]
            omega
          have h2 : ((a :: t) ++ e :: es).length - cap = es.length + 1 := by
            simp only [List.length_append, List.length_cons]
            omega
          rw [h1, h2, List.cons_append, List.drop_succ_cons]

/-- C2: for every sequence of offers to a bounded queue of positive
capacity cap, starting empty, the length never exceeds cap and the
retained elements are exactly the most recently offered min(cap, total)
elements in arrival order; the kick queue has capacity 5 and the normal
queue capacity 10. -/
theorem queue_drop_oldest (cap : ℕ) (hcap : 0 < cap) (es : List Event) :
    (es.foldl (offer cap) []).length ≤ cap
    ∧ es.foldl (offer cap) [] = es.drop (es.length - cap)
    ∧ kick_queue_maxsize = 5 ∧ midi_queue_maxsize = 10 := by
  have h := offer_foldl_drop cap hcap es [] (by simp)
  simp only [List.nil_append] at h
  refine ⟨?_, h, rfl, rfl⟩
  rw [h, List.length_drop]
  omega

/-- Witness for C2: seven rapid kicks into the capacity-5 kick queue
retain exactly the last five in arrival order. -/
theorem queue_drop_oldest_witness :
    0 < 5
    ∧ ((sampleEvents.foldl (offer 5) []).length ≤ 5
       ∧ sampleEvents.foldl (offer 5) [] = sampleEvents.drop (sampleEvents.length - 5)
       ∧ kick_queue_maxsize = 5 ∧ midi_queue_maxsize = 10) :=
  ⟨by decide, queue_drop_oldest 5 (by decide) sampleEvents⟩

/-- C1: in every iteration of the scheduling loop the kick queue is
drained to empty; if any fresh kick is dispatched then every dispatch of
that iteration is a kick (the normal queue is not touched); and a
normal-priority dispatch happens only when the exhaustive kick drain
found no fresh kick, and is then the iteration's only dispatch.  Since a
run is the iteration of loopIter, every high-priority dispatch precedes
every normal-priority dispatch of an event that was already enqueued
when the kick was dispatched. -/
theorem kick_priority (maxAge : ℚ) (s : LoopState) (inp : IterInput) :
    (loopIter maxAge s inp).1.kickQ = []
    ∧ ((∃ d ∈ (loopIter maxAge s inp).2, d.is_kick = true) →
        ∀ d ∈ (loopIter maxAge s inp).2, d.is_kick = true)
    ∧ ((∃ d ∈ (loopIter maxAge s inp).2, d.is_kick = false) →
        drainKicks maxAge inp.kickClock (postOffer s inp).kickQ 0 = []
        ∧ (loopIter maxAge s inp).2 = [⟨false, ((postOffer s inp).midiQ).headI⟩]) := by
  simp only [loopIter]
  by_cases hk : drainKicks maxAge inp.kickClock (postOffer s inp).kickQ 0 = []
  · simp only [hk]
    cases hm : (postOffer s inp).midiQ with
    | nil => simp
    | cons e rest =>
        by_cases hage : inp.normalNow - e.timestamp > maxAge
        · simp [hage]
        · simp [hage, hm]
  · simp only [ne_eq, hk, not_false_eq_true, if_true]
    refine ⟨trivial, ?_, ?_⟩
    · intro _ d hd
      rcases List.mem_map.mp hd with ⟨k, _, rfl⟩
      rfl
    · rintro ⟨d, hd, hfalse⟩
      rcases List.mem_map.mp hd with ⟨k, _, rfl⟩
      simp at hfalse

/-- Witness for C1 at a concrete iteration: one fresh kick arrival. -/
theorem kick_priority_witness :
    (loopIter 1 ⟨[], []⟩ ⟨[(36, 100, 0)], fun _ => 0, 0⟩).1.kickQ = []
    ∧ ((∃ d ∈ (loopIter 1 ⟨[], []⟩ ⟨[(36, 100, 0)], fun _ => 0, 0⟩).2,
          d.is_kick = true) →
        ∀ d ∈ (loopIter 1 ⟨[], []⟩ ⟨[(36, 100, 0)], fun _ => 0, 0⟩).2,
          d.is_kick = true)
    ∧ ((∃ d ∈ (loopIter 1 ⟨[], []⟩ ⟨[(36, 100, 0)], fun _ => 0, 0⟩).2,
          d.is_kick = false) →
        drainKicks 1 (fun _ => 0)
          (postOffer ⟨[], []⟩ ⟨[(36, 100, 0)], fun _ => 0, 0⟩).kickQ 0 = []
        ∧ (loopIter 1 ⟨[], []⟩ ⟨[(36, 100, 0)], fun _ => 0, 0⟩).2
            = [⟨false, ((postOffer ⟨[], []⟩ ⟨[(36, 100, 0)], fun _ => 0, 0⟩).midiQ).headI⟩]) :=
  kick_priority 1 ⟨[], []⟩ ⟨[(36, 100, 0)], fun _ => 0, 0⟩

/-- C3: staleness is decided at dequeue time on both paths.  The kick
drain dispatches exactly those dequeued events whose age at their own
dequeue instant is at most maxAge (stale kicks are discarded, fresh ones
always dispatched, in order); and when the drain found no fresh kick and
the normal queue yields an event, that event is dispatched if and only
if its age at its dequeue instant is at most maxAge. -/
theorem staleness_filter (maxAge : ℚ) (clock : ℕ → ℚ) (q : List Event)
    (i : ℕ) (s : LoopState) (inp : IterInput) :
    drainKicks maxAge clock q i
      = ((List.enumFrom i q).filter
          (fun p => decide (clock p.1 - p.2.timestamp ≤ maxAge))).map Prod.snd
    ∧ (∀ e rest, (postOffer s inp).midiQ = e :: rest →
        drainKicks maxAge inp.kickClock (postOffer s inp).kickQ 0 = [] →
        (Dispatch.mk false e ∈ (loopIter maxAge s inp).2
          ↔ inp.normalNow - e.timestamp ≤ maxAge)) := by
  constructor
  · induction q generalizing i with
    | nil => simp [drainKicks]
    | cons e q ih =>
        rw [drainKicks, List.enumFrom_cons, List.filter_cons]
        by_cases h : clock i - e.timestamp > maxAge
        · rw [if_pos h, if_neg (by simp [not_le.mpr h]), ih]
        · rw [if_neg h, if_pos (by simp [not_lt.mp h]), List.map_cons, ih]
  · intro e rest hm hk
    unfold loopIter
    simp only [hk, hm]
    by_cases hage : inp.normalNow - e.timestamp > maxAge
    · simp [hage, not_le.mpr hage]
    · simp [hage, not_lt.mp hage]

/-- Witness for C3: a stale and a fresh kick in the queue, and a fresh
normal event at the head of the normal queue. -/
theorem staleness_filter_witness :
    drainKicks 1 (fun n => (n : ℚ) + 10) [⟨36, 100, 0⟩, ⟨36, 101, 10⟩] 0
      = ((List.enumFrom 0 [⟨36, 100, 0⟩, ⟨36, 101, 10⟩]).filter
          (fun p => decide ((fun n => (n : ℚ) + 10) p.1 - p.2.timestamp ≤ 1))).map
          Prod.snd
    ∧ (∀ e rest,
        (postOffer ⟨[], []⟩ ⟨[(38, 100, 0)], fun _ => 0, 0⟩).midiQ = e :: rest →
        drainKicks 1 (fun _ => 0)
          (postOffer ⟨[], []⟩ ⟨[(38, 100, 0)], fun _ => 0, 0⟩).kickQ 0 = [] →
        (Dispatch.mk false e ∈ (loopIter 1 ⟨[], []⟩ ⟨[(38, 100, 0)], fun _ => 0, 0⟩).2
          ↔ (0 : ℚ) - e.timestamp ≤ 1)) :=
  staleness_filter 1 (fun n => (n : ℚ) + 10) [⟨36, 100, 0⟩, ⟨36, 101, 10⟩] 0
    ⟨[], []⟩ ⟨[(38, 100, 0)], fun _ => 0, 0⟩

/-- Helper: reading a per-class task slot after writing one. -/
theorem getTask_setTask (s : CtrlState) (k k2 : Bool) (t : Option Anim) :
    getTask (setTask s k t) k2 = if k = k2 then t else getTask s k2 := by
  cases k <;> cases k2 <;> simp [getTask, setTask]

/-- Helper: a controller run over a concatenation splits into the run of
the first part followed by the run of the second from the reached
state. -/
theorem ctrlRun_append (c : RGB) (s : CtrlState) (xs ys : List CtrlOp) :
    ctrlRun c s (xs ++ ys)
      = ((ctrlRun c (ctrlRun c s xs).1 ys).1,
         (ctrlRun c s xs).2 ++ (ctrlRun c (ctrlRun c s xs).1 ys).2) := by
  induction xs generalizing s with
  | nil => simp [ctrlRun]
  | cons op xs ih => simp [ctrlRun, ih, List.append_assoc]

/-- Helper: a fade-phase call of animation n in a controller run's log
requires n to be flashed inside the run or to be pending in the starting
state. -/
theorem fade_mem_source (c : RGB) (n : ℕ) :
    ∀ (ops : List CtrlOp) (s : CtrlState) (call : LogCall),
      call ∈ (ctrlRun c s ops).2 → call.isFadeOf n = true →
      n ∈ flashIds ops ∨ ∃ k a, getTask s k = some a ∧ a.id = n := by
  intro ops
  induction ops with
  | nil =>
      intro s call h _
      simp [ctrlRun] at h
  | cons op ops ih =>
      intro s call hmem hfade
      cases op with
      | flash k a =>
          simp only [ctrlRun, ctrlStep] at hmem
          rcases List.mem_append.mp hmem with h | h
          · simp only [List.mem_cons, List.not_mem_nil, or_false] at h
            rcases h with h | h <;>
              (rw [h] at hfade; simp [LogCall.isFadeOf] at hfade)
          · rcases ih _ call h hfade with h1 | ⟨k2, a2, hget, hid⟩
            · exact Or.inl (List.mem_cons_of_mem _ h1)
            · rw [getTask_setTask] at hget
              by_cases hk : k = k2
              · rw [if_pos hk] at hget
                injection hget with ha
                exact Or.inl (by rw [← hid, ← ha]; exact List.mem_cons_self _ _)
              · rw [if_neg hk] at hget
                exact Or.inr ⟨k2, a2, hget, hid⟩
      | fadeFire k =>
          cases hget : getTask s k with
          | none =>
              simp only [ctrlRun, ctrlStep, hget, List.nil_append] at hmem
              rcases ih _ call hmem hfade with h1 | h2
              · exact Or.inl h1
              · exact Or.inr h2
          | some a =>
              simp only [ctrlRun, ctrlStep, hget] at hmem
              rcases List.mem_append.mp hmem with h | h
              · simp only [List.mem_cons, List.not_mem_nil, or_false] at h
                rcases h with h | h
                · rw [h] at hfade
                  simp only [LogCall.isFadeOf, decide_eq_true_eq] at hfade
                  exact Or.inr ⟨k, a, hget, hfade⟩
                · rw [h] at hfade
                  simp only [LogCall.isFadeOf, decide_eq_true_eq] at hfade
                  exact Or.inr ⟨k, a, hget, hfade⟩
              · rcases ih _ call h hfade with h1 | ⟨k2, a2, hget2, hid⟩
                · exact Or.inl h1
                · rw [getTask_setTask] at hget2
                  by_cases hk : k = k2
                  · rw [if_pos hk] at hget2; exact absurd hget2 (by simp)
                  · rw [if_neg hk] at hget2
                    exact Or.inr ⟨k2, a2, hget2, hid⟩

/-- Helper: each flash-phase call kind of animation n appears in the log
exactly as many times as n is flashed in the op sequence. -/
theorem flash_count (c : RGB) (n : ℕ) :
    ∀ (ops : List CtrlOp) (s : CtrlState),
      ((ctrlRun c s ops).2.filter (LogCall.isFlashColorOf n)).length
        = (flashIds ops).count n
      ∧ ((ctrlRun c s ops).2.filter (LogCall.isFlashBrightnessOf n)).length
        = (flashIds ops).count n := by
  intro ops
  induction ops with
  | nil => intro s; simp [ctrlRun, flashIds]
  | cons op ops ih =>
      intro s
      cases op with
      | flash k a =>
          have h1 := (ih (setTask s k (some a))).1
          have h2 := (ih (setTask s k (some a))).2
          by_cases han : a.id = n
          · subst han
            refine ⟨?_, ?_⟩ <;>
              simp [ctrlRun, ctrlStep, List.filter_append, List.filter_cons,
                flashIds, List.count_cons, LogCall.isFlashColorOf,
                LogCall.isFlashBrightnessOf, h1, h2]
          · have han2 : ¬ n = a.id := fun h => han h.symm
            refine ⟨?_, ?_⟩ <;>
              simp [ctrlRun, ctrlStep, List.filter_append, List.filter_cons,
                flashIds, List.count_cons, LogCall.isFlashColorOf,
                LogCall.isFlashBrightnessOf, han, han2, h1, h2]
      | fadeFire k =>
          cases hget : getTask s k with
          | none =>
              have h1 := (ih s).1
              have h2 := (ih s).2
              exact ⟨by simp [ctrlRun, ctrlStep, hget, flashIds, h1],
                     by simp [ctrlRun, ctrlStep, hget, flashIds, h2]⟩
          | some a =>
              have h1 := (ih (setTask s k none)).1
              have h2 := (ih (setTask s k none)).2
              refine ⟨?_, ?_⟩ <;>
                simp [ctrlRun, ctrlStep, hget, List.filter_append,
                  List.filter_cons, flashIds, LogCall.isFlashColorOf,
                  LogCall.isFlashBrightnessOf, h1, h2]

/-- Helper: an animation pending in the state reached by a controller run
was either flashed during the run or already pending initially. -/
theorem task_source (c : RGB) :
    ∀ (ops : List CtrlOp) (s : CtrlState) (k : Bool) (a : Anim),
      getTask (ctrlRun c s ops).1 k = some a →
      a.id ∈ flashIds ops ∨ getTask s k = some a := by
  intro ops
  induction ops with
  | nil => intro s k a h; exact Or.inr h
  | cons op ops ih =>
      intro s k a hget
      cases op with
      | flash k2 a2 =>
          simp only [ctrlRun, ctrlStep] at hget
          rcases ih _ k a hget with h1 | h2
          · exact Or.inl (List.mem_cons_of_mem _ h1)
          · rw [getTask_setTask] at h2
            by_cases hk : k2 = k
            · rw [if_pos hk] at h2
              injection h2 with ha
              exact Or.inl (by rw [← ha]; exact List.mem_cons_self _ _)
            · rw [if_neg hk] at h2
              exact Or.inr h2
      | fadeFire k2 =>
          cases hg : getTask s k2 with
          | none =>
              simp only [ctrlRun, ctrlStep, hg] at hget
              exact ih _ k a hget
          | some a2 =>
              simp only [ctrlRun, ctrlStep, hg] at hget
              rcases ih _ k a hget with h1 | h2
              · exact Or.inl h1
              · rw [getTask_setTask] at h2
                by_cases hk : k2 = k
                · rw [if_pos hk] at h2; exact absurd h2 (by simp)
                · rw [if_neg hk] at h2
                  exact Or.inr h2

/-- Helper: flashIds distributes over concatenation. -/
theorem flashIds_append (xs ys : List CtrlOp) :
    flashIds (xs ++ ys) = flashIds xs ++ flashIds ys := by
  induction xs with
  | nil => rfl
  | cons op xs ih => cases op <;> simp [flashIds, ih]

/-- C4: at most one animation per priority class is active.  In a run
from startup in which animation a1 of class k is flashed and, while it
is still pending (no fade of class k fired in between - here the
strongest instance, immediately after), animation a2 of the same class
is flashed, and the animation tags are not reused elsewhere: the first
animation's fade-back actuator calls never execute (the new _flash_led
cancels and awaits the predecessor's fade task before issuing any
actuator call), and the second animation's flash set_color and
set_brightness each execute exactly once. -/
theorem animation_cancel (orig : RGB) (k : Bool) (a1 a2 : Anim)
    (pre post : List CtrlOp) (h12 : a1.id ≠ a2.id)
    (h1pre : a1.id ∉ flashIds pre) (h1post : a1.id ∉ flashIds post)
    (h2pre : a2.id ∉ flashIds pre) (h2post : a2.id ∉ flashIds post) :
    ((ctrlRun orig ⟨none, none⟩
        (pre ++ CtrlOp.flash k a1 :: CtrlOp.flash k a2 :: post)).2.filter
      (LogCall.isFadeOf a1.id)).length = 0
    ∧ ((ctrlRun orig ⟨none, none⟩
        (pre ++ CtrlOp.flash k a1 :: CtrlOp.flash k a2 :: post)).2.filter
      (LogCall.isFlashColorOf a2.id)).length = 1
    ∧ ((ctrlRun orig ⟨none, none⟩
        (pre ++ CtrlOp.flash k a1 :: CtrlOp.flash k a2 :: post)).2.filter
      (LogCall.isFlashBrightnessOf a2.id)).length = 1 := by
  have h21 : a2.id ≠ a1.id := fun h => h12 h.symm
  have hids : flashIds (pre ++ CtrlOp.flash k a1 :: CtrlOp.flash k a2 :: post)
      = flashIds pre ++ a1.id :: a2.id :: flashIds post := by
    rw [flashIds_append]; rfl
  refine ⟨?_, ?_, ?_⟩
  · rw [List.length_eq_zero, List.filter_eq_nil_iff]
    intro call hmem hfade
    rw [ctrlRun_append] at hmem
    rcases List.mem_append.mp hmem with hpre | hrest
    · rcases fade_mem_source orig a1.id pre ⟨none, none⟩ call hpre hfade with
        h | ⟨k2, ax, hget, _⟩
      · exact h1pre h
      · cases k2 <;> simp [getTask] at hget
    · simp only [ctrlRun, ctrlStep, List.cons_append, List.nil_append,
        List.mem_cons, List.mem_append] at hrest
      rcases hrest with h | h | h | h | hpost
      · rw [h] at hfade; simp [LogCall.isFadeOf] at hfade
      · rw [h] at hfade; simp [LogCall.isFadeOf] at hfade
      · rw [h] at hfade; simp [LogCall.isFadeOf] at hfade
      · rw [h] at hfade; simp [LogCall.isFadeOf] at hfade
      · rcases fade_mem_source orig a1.id post _ call hpost hfade with
          h | ⟨k2, ax, hget, hid⟩
        · exact h1post h
        · rw [getTask_setTask] at hget
          by_cases hk : k = k2
          · rw [if_pos hk] at hget
            injection hget with ha
            exact h21 (by rw [← hid, ← ha])
          · rw [if_neg hk, getTask_setTask, if_neg hk] at hget
            rcases task_source orig pre ⟨none, none⟩ k2 ax hget with h | h
            · rw [hid] at h; exact h1pre h
            · cases k2 <;> simp [getTask] at h
  · rw [(flash_count orig a2.id _ ⟨none, none⟩).1, hids]
    rw [List.count_append, List.count_eq_zero.mpr h2pre]
    simp [List.count_cons, List.count_eq_zero.mpr h2post, h21]
  · rw [(flash_count orig a2.id _ ⟨none, none⟩).2, hids]
    rw [List.count_append, List.count_eq_zero.mpr h2pre]
    simp [List.count_cons, List.count_eq_zero.mpr h2post, h21]

/-- Witness for C4: two kick animations flashed back to back, followed by
a fade timer firing; the first animation's fade never runs and the
second's flash calls appear exactly once. -/
theorem animation_cancel_witness :
    (1 : ℕ) ≠ 2
    ∧ (1 : ℕ) ∉ flashIds []
    ∧ (1 : ℕ) ∉ flashIds [CtrlOp.fadeFire true]
    ∧ (2 : ℕ) ∉ flashIds []
    ∧ (2 : ℕ) ∉ flashIds [CtrlOp.fadeFire true]
    ∧ (((ctrlRun (255, 255, 255) ⟨none, none⟩
          ([] ++ CtrlOp.flash true ⟨1, (255, 0, 0), 100⟩
            :: CtrlOp.flash true ⟨2, (255, 0, 0), 69⟩
            :: [CtrlOp.fadeFire true])).2.filter
        (LogCall.isFadeOf 1)).length = 0
       ∧ (((ctrlRun (255, 255, 255) ⟨none, none⟩
            ([] ++ CtrlOp.flash true ⟨1, (255, 0, 0), 100⟩
              :: CtrlOp.flash true ⟨2, (255, 0, 0), 69⟩
              :: [CtrlOp.fadeFire true])).2.filter
          (LogCall.isFlashColorOf 2)).length = 1
       ∧ ((ctrlRun (255, 255, 255) ⟨none, none⟩
            ([] ++ CtrlOp.flash true ⟨1, (255, 0, 0), 100⟩
              :: CtrlOp.flash true ⟨2, (255, 0, 0), 69⟩
              :: [CtrlOp.fadeFire true])).2.filter
          (LogCall.isFlashBrightnessOf 2)).length = 1)) :=
  ⟨by decide, by decide, by decide, by decide, by decide,
   animation_cancel (255, 255, 255) true ⟨1, (255, 0, 0), 100⟩
     ⟨2, (255, 0, 0), 69⟩ [] [CtrlOp.fadeFire true]
     (by decide) (by decide) (by decide) (by decide) (by decide)⟩

/-- Helper: send_command never lets an exception escape, for every fault
pattern and connection state. -/
theorem send_command_ok (env : FaultEnv) (i : ℕ) :
    ∃ b, send_command env i = Except.ok b := by
  by_cases hc : env.connected i
  · by_cases hw : env.writeRaises i
    · exact ⟨false, by simp [send_command, write_gatt_char, hc, hw]⟩
    · exact ⟨true, by simp [send_command, write_gatt_char, hc, hw]⟩
  · exact ⟨false, by simp [send_command, hc]⟩

/-- Helper: the flash body of _flash_led never lets an exception escape,
because send_command absorbs every actuator failure. -/
theorem flash_led_body_ok (env : FaultEnv) (i : ℕ) :
    ∃ v, flash_led_body env i = Except.ok v := by
  rcases send_command_ok env i with ⟨b1, h1⟩
  rcases send_command_ok env (i + 1) with ⟨b2, h2⟩
  refine ⟨(b1, b2, i + 2), ?_⟩
  simp only [flash_led_body, h1, h2]
  rfl

/-- Helper: the writes of a dispatch list never let an exception
escape. -/
theorem dispatch_writes_ok (env : FaultEnv) (ds : List Dispatch) :
    ∀ i, ∃ n, ds.foldlM (dispatchWrites env) i = Except.ok n := by
  induction ds with
  | nil => exact fun i => ⟨i, rfl⟩
  | cons d ds ih =>
      intro i
      rcases flash_led_body_ok env i with ⟨v, hv⟩
      rcases ih v.2.2 with ⟨n, hn⟩
      refine ⟨n, ?_⟩
      simp only [List.foldlM_cons, dispatchWrites, hv]
      exact hn

/-- C8: no actuator- or queue-level failure terminates the scheduling
loop.  For every fault pattern: send_command absorbs its exception and
returns a boolean; the flash body of _flash_led raises nothing; the
while-body of an iteration completes without an exception reaching its
except clause; and a run over any list of iteration inputs executes
every iteration. -/
theorem loop_survives_faults (env : FaultEnv) (maxAge : ℚ) (s : LoopState)
    (inp : IterInput) (i : ℕ) (inps : List IterInput) :
    (∃ b, send_command env i = Except.ok b)
    ∧ (∃ v, flash_led_body env i = Except.ok v)
    ∧ (∃ r, iterBody env maxAge s inp i = Except.ok r)
    ∧ (loopRunFaults env maxAge s inps i).length = inps.length := by
  refine ⟨send_command_ok env i, flash_led_body_ok env i, ?_, ?_⟩
  · rcases dispatch_writes_ok env (loopIter maxAge s inp).2 i with ⟨n, hn⟩
    exact ⟨((loopIter maxAge s inp).1, (loopIter maxAge s inp).2, n),
      by simp [iterBody, hn]⟩
  · clear inp
    induction inps generalizing s i with
    | nil => rfl
    | cons inp inps ih => simp [loopRunFaults, ih]

end SnareFlare
